import Mathlib

/-!
A verification development for the Midea dehumidifier LAN integration.

The definitions below are a shallow embedding of
`custom_components/midea_dehumidifier_lan/config_flow.py` and
`custom_components/midea_dehumidifier_lan/humidifier.py`:

* `LanDevice` models the appliance records (`midea_beautiful_dehumidifier.lan.LanDevice`)
  as used by the flow: the `ip` field is `Option String` (`none` models Python `None`),
  and an opaque `state` field stands for the probed device state.
* `validate_appliance`, `applySubmission`, `stepUnreachableSubmit`, `runPhase`,
  `afterDiscovery` model the `unreachable_appliance` step loop.
* `addEntryStep` models `_async_add_entry` together with the config-entry registry.
* `applyAdvancedOptions` / `resolveAppKeys` model `_validate_discovery_phase`.
* `modeRead` / `setModeInt` model `DehumidifierEntity.mode` / `set_mode`.

External collaborators (cloud discovery, device probe) are passed in as explicit
function arguments (`probe`).  Python truthiness of optional strings is modelled
by `strFalsy`.
-/

namespace Midea

/-- Modelled from the spec: the ignored-sentinel address `IGNORED_IP_ADDRESS` from
`const.py` (not under src/); the spec treats it as an opaque sentinel marker. -/
def IGNORED_IP_ADDRESS : String := "0.0.0.0"

/-- Modelled from the spec: the fixed placeholder username `DEFAULT_USERNAME`
from `const.py` (not under src/); opaque value. -/
def DEFAULT_USERNAME : String := "midea-default-username"

/-- Modelled from the spec: the fixed placeholder password `DEFAULT_PASSWORD`
from `const.py` (not under src/); opaque value. -/
def DEFAULT_PASSWORD : String := "midea-default-password"

/-- Modelled from the spec: the fixed default appkey `DEFAULT_APPKEY` from the
`midea_beautiful_dehumidifier` library (not under src/); opaque value. -/
def DEFAULT_APPKEY : String := "default-appkey"

/-- Modelled from the spec: the fixed default appid `DEFAULT_APP_ID` from the
`midea_beautiful_dehumidifier` library (not under src/); opaque value. -/
def DEFAULT_APP_ID : Int := 1000

/-- Modelled from the spec: the supported mobile-app table `SUPPORTED_APPS` from the
`midea_beautiful_dehumidifier` library (not under src/): a fixed lookup table keyed by
a named mobile-app profile, each entry carrying an appkey/appid pair.  The config flow
offers the profiles "NetHome" and "MideaAir"; the entry values are opaque here. -/
def SUPPORTED_APPS : List (String × String × Int) :=
  [("NetHome", "nethome-appkey", 1017), ("MideaAir", "mideaair-appkey", 1117)]

/-- `SUPPORTED_APPS.get(app)` of the Python dict. -/
def lookupApp (app : String) : Option (String × Int) :=
  (SUPPORTED_APPS.find? (fun p => p.1 = app)).map (fun p => p.2)

/-- Python truthiness of an optional string: `None` and `""` are falsy. -/
def strFalsy : Option String → Bool
  | none => true
  | some s => decide (s = "")

/-- Split a character list on a separator (the behaviour of Python
`str.split(sep)`: the empty string yields one empty group). -/
def splitOnCh (sep : Char) : List Char → List (List Char)
  | [] => [[]]
  | c :: rest =>
      match splitOnCh sep rest with
      | [] => [[]]
      | g :: gs => if c = sep then [] :: g :: gs else (c :: g) :: gs

/-- Decimal value of a digit list. -/
def decVal (cs : List Char) : Nat :=
  cs.foldl (fun n c => n * 10 + (c.toNat - 48)) 0

/-- One dotted-quad octet as accepted by `ipaddress.IPv4Address`: one to three
digits, no leading zero, value at most 255. -/
def isOctet (cs : List Char) : Bool :=
  decide (cs ≠ []) && decide (cs.length ≤ 3) && cs.all Char.isDigit &&
    (decide (cs.length = 1) || decide (cs.headD '0' ≠ '0')) && decide (decVal cs ≤ 255)

/-- `ipaddress.IPv4Address(s)` parse check: four dot-separated octets. -/
def isIPv4 (s : String) : Bool :=
  let parts := splitOnCh '.' s.data
  decide (parts.length = 4) && parts.all isOctet

/-- Modelled from the spec: `ipaddress.IPv4Network(s, strict=False)` parse check
(the Python standard library, not under src/): an IPv4 address with an optional
numeric prefix length of at most 32. -/
def isIPv4Network (s : String) : Bool :=
  match splitOnCh '/' s.data with
  | [a] => isIPv4 (String.mk a)
  | [a, p] => isIPv4 (String.mk a) && decide (p ≠ []) && p.all Char.isDigit &&
      decide (decVal p ≤ 32)
  | _ => false

/-- The opaque state reported by a successful probe (`get_appliance_state`). -/
structure ApplianceState where
  blob : Nat
deriving DecidableEq, Repr

/-- An appliance record (`LanDevice`) as used by the config flow.  `ip = none`
models Python `None` (unresolved); `state` is the opaque probed device state. -/
structure LanDevice where
  id : Nat
  ip : Option String
  name : String
  type_ : String
  token : String
  key : String
  state : ApplianceState
deriving DecidableEq, Repr

/-- Placeholder device used only for out-of-range list reads. -/
def dummyDevice : LanDevice :=
  { id := 0, ip := none, name := "", type_ := "", token := "", key := "",
    state := ⟨0⟩ }

/-- Modelled from the spec: `LanDevice.update(discovered)` from the
`midea_beautiful_dehumidifier` library (not under src/) — merges the probe's
reported state into the appliance record, keeping its identity and address. -/
def LanDevice.update (a : LanDevice) (d : ApplianceState) : LanDevice :=
  { a with state := d }

/-- A `FlowException(message, cause)`. -/
structure FlowException where
  message : String
  cause : Option String
deriving DecidableEq, Repr

/-- `validate_appliance(cloud, appliance)`: trivially accepts an ignored or
unset address; otherwise requires the address to parse as IPv4
(`invalid_ip_address` carrying the string) and the probe to find the device
(`not_discovered` carrying the address); on success merges the probed state. -/
def validate_appliance (probe : String → Option ApplianceState) (a : LanDevice) :
    Except FlowException LanDevice :=
  match a.ip with
  | none => .ok a
  | some ip =>
      if ip = IGNORED_IP_ADDRESS then .ok a
      else if isIPv4 ip then
        match probe ip with
        | some d => .ok (a.update d)
        | none => .error ⟨"not_discovered", some ip⟩
      else .error ⟨"invalid_ip_address", some ip⟩

/-- A submission to the `unreachable_appliance` form.  Optional fields model
keys that may be absent from the Python `user_input` dict. -/
structure UnreachableInput where
  ignore : Bool
  ip_address : Option String
  name : String
  token : Option String
  token_key : Option String
deriving DecidableEq, Repr

/-- Lines 254–261 of `async_step_unreachable_appliance`: write the submitted
fields onto the appliance record; a blank or absent address becomes the
ignored sentinel. -/
def applySubmission (a : LanDevice) (u : UnreachableInput) : LanDevice :=
  let ip := if strFalsy u.ip_address then some IGNORED_IP_ADDRESS else u.ip_address
  { a with
    ip := ip
    name := u.name
    token := u.token.getD ""
    key := u.token_key.getD "" }

/-- Walk the remaining appliances (those from position `i` on), returning the
position of the first with `ip = none`. -/
def findUnresolvedAux (i : Nat) : List LanDevice → Option Nat
  | [] => none
  | a :: rest => if a.ip = none then some i else findUnresolvedAux (i + 1) rest

/-- First index `j ≥ i` whose appliance has `ip = none` (the advance loop of
`async_step_unreachable_appliance`, lines 268–277). -/
def findUnresolvedFrom (l : List LanDevice) (i : Nat) : Option Nat :=
  findUnresolvedAux i (l.drop i)

/-- Walk the remaining appliances, collecting the positions of all with
`ip = none`, in increasing order. -/
def unresolvedAux (i : Nat) : List LanDevice → List Nat
  | [] => []
  | a :: rest =>
      if a.ip = none then i :: unresolvedAux (i + 1) rest
      else unresolvedAux (i + 1) rest

/-- All indices `j ≥ i` whose appliance has `ip = none`, in increasing order. -/
def unresolvedFrom (l : List LanDevice) (i : Nat) : List Nat :=
  unresolvedAux i (l.drop i)

/-- Result of one `async_step_unreachable_appliance` submission: either the
form is shown again (for index `idx`, with the stored cause and error), or the
flow transfers to `_async_add_entry`. -/
inductive StepResult where
  | showForm (devices : List LanDevice) (idx : Nat) (cause : Option String)
      (errorBase : Option String)
  | addEntry (devices : List LanDevice)
deriving DecidableEq, Repr

/-- The appliance list carried by a step result. -/
def StepResult.devices : StepResult → List LanDevice
  | .showForm l _ _ _ => l
  | .addEntry l => l

/-- One submission to `async_step_unreachable_appliance` at cursor `i`:
apply the input onto the appliance, validate it; on success advance the cursor
past resolved entries (redisplaying for the next unresolved appliance with the
cause cleared, or transferring to `_async_add_entry`); on failure redisplay the
same appliance with the exception's cause and message. -/
def stepUnreachableSubmit (probe : String → Option ApplianceState)
    (l : List LanDevice) (i : Nat) (u : UnreachableInput) : StepResult :=
  match validate_appliance probe (applySubmission (l.getD i dummyDevice) u) with
  | .ok a2 =>
      match findUnresolvedFrom (l.set i a2) (i + 1) with
      | some j => .showForm (l.set i a2) j none none
      | none => .addEntry (l.set i a2)
  | .error e =>
      .showForm (l.set i (applySubmission (l.getD i dummyDevice) u)) i
        e.cause (some e.message)

/-- Outcome of driving the unreachable-appliance phase with a list of
submissions: `finished` reached `_async_add_entry`, `pending` still shows a
form.  `displays` lists, in order, the cursor value of every display of the
`unreachable_appliance` form. -/
inductive PhaseOutcome where
  | finished (devices : List LanDevice) (displays : List Nat)
  | pending (devices : List LanDevice) (idx : Nat) (displays : List Nat)
deriving DecidableEq, Repr

/-- Drive the unreachable-appliance phase from a displayed form at cursor `i`,
feeding one submission per displayed form. -/
def runPhase (probe : String → Option ApplianceState) (l : List LanDevice)
    (i : Nat) : List UnreachableInput → PhaseOutcome
  | [] => .pending l i [i]
  | u :: rest =>
      match stepUnreachableSubmit probe l i u with
      | .addEntry l2 => .finished l2 [i]
      | .showForm l2 j _ _ =>
          match runPhase probe l2 j rest with
          | .finished l3 ds => .finished l3 (i :: ds)
          | .pending l3 k ds => .pending l3 k (i :: ds)

/-- Walk the appliance list, returning the position of the first with a falsy
address. -/
def scanAux (i : Nat) : List LanDevice → Option Nat
  | [] => none
  | a :: rest => if strFalsy a.ip then some i else scanAux (i + 1) rest

/-- Lines 150–156 of `_validate_discovery_phase`: the first index whose
appliance has a falsy (`None` or empty) address, `none` when all are set. -/
def discoveryScan (l : List LanDevice) : Option Nat :=
  scanAux 0 l

/-- Lines 150–160 of `_validate_discovery_phase`: after discovery, either enter
the unreachable-appliance phase at the first address-less appliance, or
transfer directly to `_async_add_entry` (zero displays). -/
def afterDiscovery (probe : String → Option ApplianceState) (l : List LanDevice)
    (subs : List UnreachableInput) : PhaseOutcome :=
  match discoveryScan l with
  | some i => runPhase probe l i subs
  | none => .finished l []

/-- The effective address string a submission puts on the appliance record. -/
def ipStr (u : UnreachableInput) : String :=
  match u.ip_address with
  | none => IGNORED_IP_ADDRESS
  | some s => if s = "" then IGNORED_IP_ADDRESS else s

/-- Whether a submission passes `validate_appliance` (the outcome depends only
on the submission and the probe, since the submission overwrites the address). -/
def submissionOk (probe : String → Option ApplianceState) (u : UnreachableInput) :
    Bool :=
  decide (ipStr u = IGNORED_IP_ADDRESS) || (isIPv4 (ipStr u) && (probe (ipStr u)).isSome)

/-- The `devices` entries of the persisted configuration
(`{ip_address, id, name, type, token, token_key}`). -/
structure DeviceConf where
  ip_address : String
  id : Nat
  name : String
  type_ : String
  token : String
  token_key : String
deriving DecidableEq, Repr

/-- The flow's `_conf` dict / the persisted configuration record. -/
structure Conf where
  username : String
  password : String
  mobile_app : Option String
  advanced_options : Bool
  appkey : String
  appid : Int
  network_range : Option String
  devices : List DeviceConf
deriving DecidableEq, Repr

/-- Lines 72–74 of `connect_and_discover`: the network ranges passed to
discovery — a falsy configured range yields the empty list, a string yields a
one-element list. -/
def networksOf (conf : Conf) : List String :=
  match conf.network_range with
  | none => []
  | some s => if s = "" then [] else [s]

/-- A submission to the `user` form. -/
structure UserInput where
  username : String
  password : String
  mobile_app : Option String
  advanced_options : Bool
deriving DecidableEq, Repr

/-- Lines 133–146 of `_validate_discovery_phase` (non-advanced branch): store
the submitted input as the configuration and resolve appkey/appid — from the
supported-apps table when a truthy profile name is given (`invalid_app_name`
carrying the name when the lookup misses), from the fixed defaults otherwise. -/
def resolveAppKeys (u : UserInput) : Except FlowException Conf :=
  let conf : Conf :=
    { username := u.username
      password := u.password
      mobile_app := u.mobile_app
      advanced_options := u.advanced_options
      appkey := ""
      appid := 0
      network_range := none
      devices := [] }
  if strFalsy u.mobile_app then
    .ok { conf with appkey := DEFAULT_APPKEY, appid := DEFAULT_APP_ID }
  else
    match u.mobile_app with
    | none => .ok { conf with appkey := DEFAULT_APPKEY, appid := DEFAULT_APP_ID }
    | some app =>
        match lookupApp app with
        | some ki => .ok { conf with appkey := ki.1, appid := ki.2 }
        | none => .error ⟨"invalid_app_name", some app⟩

/-- A submission to the `advanced_options` form.  Optional fields model keys
that may be absent from the Python `user_input` dict. -/
structure AdvancedInput where
  username : Option String
  password : Option String
  appkey : Option String
  appid : Option Int
  network_range : Option String
deriving DecidableEq, Repr

/-- Lines 118–129 of `_validate_discovery_phase` (advanced branch): both appkey
and appid must be present (`invalid_appkey` otherwise); a truthy network range
must parse as an IPv4 network (`invalid_ip_range` carrying the string) and is
then stored. -/
def applyAdvancedOptions (conf : Conf) (u : AdvancedInput) : Except FlowException Conf :=
  match u.appkey, u.appid with
  | some k, some i =>
      let conf2 := { conf with appkey := k, appid := i }
      if strFalsy u.network_range then .ok conf2
      else
        match u.network_range with
        | none => .ok conf2
        | some r =>
            if isIPv4Network r then .ok { conf2 with network_range := some r }
            else .error ⟨"invalid_ip_range", some r⟩
  | _, _ => .error ⟨"invalid_appkey", none⟩

/-- Python `x or d` over an optional string: the string when truthy, else `d`. -/
def orDefaultS (x : Option String) (d : String) : String :=
  match x with
  | none => d
  | some s => if s = "" then d else s

/-- Python `int(x or d)` over an optional integer: the value when truthy
(non-zero), else `d`. -/
def orDefaultI (x : Option Int) (d : Int) : Int :=
  match x with
  | none => d
  | some n => if n = 0 then d else n

/-- The default values with which the `advanced_options` form is redisplayed
(lines 210–221 and 230–239 of `async_step_advanced_options`). -/
structure AdvancedFormDefaults where
  username : String
  password : String
  appkey : String
  appid : Int
  network_range : String
deriving DecidableEq, Repr

/-- Lines 210–221 of `async_step_advanced_options`: the form defaults after a
submission — each submitted truthy value is retained, with the stored
configuration (or the fixed defaults) filling the rest. -/
def advancedFormDefaults (conf : Conf) (u : AdvancedInput) : AdvancedFormDefaults :=
  { username := orDefaultS u.username (orDefaultS (some conf.username) DEFAULT_USERNAME)
    password := orDefaultS u.password (orDefaultS (some conf.password) DEFAULT_PASSWORD)
    appkey := orDefaultS u.appkey DEFAULT_APPKEY
    appid := orDefaultI u.appid DEFAULT_APP_ID
    network_range := orDefaultS u.network_range "" }

/-- Result of an `advanced_options` submission: redisplay the form with the
retained defaults, cause and error, or proceed to discovery with the updated
configuration. -/
inductive AdvancedStepResult where
  | showForm (defaults : AdvancedFormDefaults) (cause : Option String)
      (errorBase : Option String)
  | proceed (conf : Conf)
deriving DecidableEq, Repr

/-- `async_step_advanced_options` with a submission, up to the discovery
boundary: a `FlowException` from the validation is caught and the form is
redisplayed with its cause and message; otherwise the flow proceeds into
discovery with the updated configuration. -/
def advancedSubmit (conf : Conf) (u : AdvancedInput) : AdvancedStepResult :=
  match applyAdvancedOptions conf u with
  | .ok conf2 => .proceed conf2
  | .error e => .showForm (advancedFormDefaults conf u) e.cause (some e.message)

/-- Line 314 of `_async_add_entry`: an appliance is included in the final
device list when its address is truthy and is not the ignored sentinel. -/
def ipIncluded (a : LanDevice) : Bool :=
  match a.ip with
  | none => false
  | some s => decide (s ≠ "") && decide (s ≠ IGNORED_IP_ADDRESS)

/-- Lines 315–324 of `_async_add_entry`: the persisted per-device fields. -/
def deviceConf (a : LanDevice) : DeviceConf :=
  { ip_address := a.ip.getD ""
    id := a.id
    name := a.name
    type_ := a.type_
    token := a.token
    token_key := a.key }

/-- Lines 312–324 of `_async_add_entry`: the final device list. -/
def addEntryDevices (l : List LanDevice) : List DeviceConf :=
  (l.filter ipIncluded).map deviceConf

/-- A persisted config entry of the host platform's registry. -/
structure ConfigEntry where
  entry_id : Nat
  unique_id : String
  data : Conf
deriving DecidableEq, Repr

/-- Terminal outcome of `_async_add_entry`: either an abort with a reason, the
updated registry and the entry id scheduled for reload, or the creation of a
new entry with a title and data. -/
inductive EntryOutcome where
  | abort (reason : String) (entries : List ConfigEntry) (reloaded : Nat)
  | create (title : String) (data : Conf)
deriving DecidableEq, Repr

/-- Lines 310–342 of `_async_add_entry`: build the device list, look up an
existing entry whose unique id equals the configured username; if found,
overwrite its data and schedule its reload, aborting with
`reauth_successful`; otherwise create a new entry. -/
def addEntryStep (entries : List ConfigEntry) (conf : Conf) (l : List LanDevice) :
    EntryOutcome :=
  let conf2 := { conf with devices := addEntryDevices l }
  match entries.find? (fun e => e.unique_id = conf.username) with
  | some e =>
      .abort "reauth_successful"
        (entries.map (fun e2 =>
          if e2.entry_id = e.entry_id then { e2 with data := conf2 } else e2))
        e.entry_id
  | none => .create "Midea Dehumidifiers" conf2

/-- The fixed mode labels of `humidifier.py`. -/
def MODE_SET : String := "Set"

def MODE_DRY : String := "Dry"

def MODE_SMART : String := "Smart"

def MODE_CONTINOUS : String := "Continuous"

def MODE_PURIFIER : String := "Purifier"

def MODE_ANTIMOULD : String := "Antimould"

def MODE_FAN : String := "Fan"

/-- `DehumidifierEntity.mode` (lines 102–118 of `humidifier.py`): the label for
the appliance's mode integer, paired with whether the unknown-mode warning was
logged (unknown values warn and fall back to `Set`). -/
def modeRead (curr_mode : Int) : String × Bool :=
  if curr_mode = 1 then (MODE_SET, false)
  else if curr_mode = 2 then (MODE_CONTINOUS, false)
  else if curr_mode = 3 then (MODE_SMART, false)
  else if curr_mode = 4 then (MODE_DRY, false)
  else if curr_mode = 6 then (MODE_PURIFIER, false)
  else if curr_mode = 7 then (MODE_ANTIMOULD, false)
  else (MODE_SET, true)

/-- `DehumidifierEntity.set_mode` (lines 138–155 of `humidifier.py`): the mode
integer applied for a label, paired with whether the unsupported-mode warning
was logged (unsupported labels warn and fall back to 1). -/
def setModeInt (mode : String) : Int × Bool :=
  if mode = MODE_SET then (1, false)
  else if mode = MODE_CONTINOUS then (2, false)
  else if mode = MODE_SMART then (3, false)
  else if mode = MODE_DRY then (4, false)
  else if mode = MODE_PURIFIER then (6, false)
  else if mode = MODE_ANTIMOULD then (7, false)
  else (1, true)

/-- The appliance list carried by a phase outcome. -/
def PhaseOutcome.devicesList : PhaseOutcome → List LanDevice
  | .finished l _ => l
  | .pending l _ _ => l

/-- The display trace carried by a phase outcome. -/
def PhaseOutcome.displays : PhaseOutcome → List Nat
  | .finished _ ds => ds
  | .pending _ _ ds => ds

/-- Whether a phase outcome reached `_async_add_entry`. -/
def PhaseOutcome.isFinished : PhaseOutcome → Bool
  | .finished _ _ => true
  | .pending _ _ _ => false

/- Helper lemmas. -/

theorem applySubmission_ip (a : LanDevice) (u : UnreachableInput) :
    (applySubmission a u).ip = some (ipStr u) := by
  cases h : u.ip_address with
  | none => simp [applySubmission, ipStr, strFalsy, h]
  | some s => by_cases hs : s = "" <;> simp [applySubmission, ipStr, strFalsy, h, hs]

theorem validate_appliance_some (probe : String → Option ApplianceState)
    (a : LanDevice) (s : String) (h : a.ip = some s) :
    validate_appliance probe a =
      (if s = IGNORED_IP_ADDRESS then .ok a
       else if isIPv4 s then
         match probe s with
         | some d => .ok (a.update d)
         | none => .error ⟨"not_discovered", some s⟩
       else .error ⟨"invalid_ip_address", some s⟩) := by
  unfold validate_appliance
  rw [h]

theorem getD_set_self (l : List LanDevice) (i : Nat) (a d : LanDevice)
    (h : i < l.length) : (l.set i a).getD i d = a := by
  simp [List.getD_eq_getElem?_getD, List.getElem?_set_self (by simpa using h)]

/- C9 -/

/-- C9: the entity adapter maps mode integers 1, 2, 3, 4, 6, 7 to the labels
Set, Continuous, Smart, Dry, Purifier, Antimould, every other integer logs a
warning and maps to Set; `set_mode` maps each of the six labels back to its
integer, so reading the mode after setting one of the six labels returns that
same label. -/
theorem c9_mode_mapping :
    (modeRead 1 = (MODE_SET, false) ∧ modeRead 2 = (MODE_CONTINOUS, false) ∧
      modeRead 3 = (MODE_SMART, false) ∧ modeRead 4 = (MODE_DRY, false) ∧
      modeRead 6 = (MODE_PURIFIER, false) ∧ modeRead 7 = (MODE_ANTIMOULD, false)) ∧
    (∀ n : Int, n ≠ 1 → n ≠ 2 → n ≠ 3 → n ≠ 4 → n ≠ 6 → n ≠ 7 →
      modeRead n = (MODE_SET, true)) ∧
    (setModeInt MODE_SET = (1, false) ∧ setModeInt MODE_CONTINOUS = (2, false) ∧
      setModeInt MODE_SMART = (3, false) ∧ setModeInt MODE_DRY = (4, false) ∧
      setModeInt MODE_PURIFIER = (6, false) ∧ setModeInt MODE_ANTIMOULD = (7, false)) ∧
    (∀ m, m ∈ [ MODE_SET, MODE_CONTINOUS, MODE_SMART, MODE_DRY, MODE_PURIFIER,
        MODE_ANTIMOULD] → modeRead (setModeInt m).1 = (m, false)) := by
  refine ⟨by decide, ?_, by decide, by decide⟩
  intro n h1 h2 h3 h4 h6 h7
  simp [modeRead, h1, h2, h3, h4, h6, h7]

/-- C9 witness: mode integer 5 (a gap value) reads back as Set with the
warning logged. -/
theorem c9_mode_mapping_witness : modeRead 5 = (MODE_SET, true) :=
  c9_mode_mapping.2.1 5 (by decide) (by decide) (by decide) (by decide)
    (by decide) (by decide)

/- C10 -/

/-- C10: the explicit ignore-flag field of an unreachable-appliance submission
is never read — two submissions identical except for the flag produce the same
appliance records and the same next step. -/
theorem c10_ignore_flag_unread (probe : String → Option ApplianceState)
    (l : List LanDevice) (i : Nat) (u : UnreachableInput) (b : Bool) :
    stepUnreachableSubmit probe l i { u with ignore := b } =
      stepUnreachableSubmit probe l i u := by
  cases u
  rfl

/- C2 -/

/-- C2: a submission with a blank or absent address leaves the appliance
record's address equal to the ignored sentinel, regardless of the explicit
ignore-flag value. -/
theorem c2_blank_address_becomes_ignored (probe : String → Option ApplianceState)
    (l : List LanDevice) (i : Nat) (u : UnreachableInput) (b : Bool)
    (hi : i < l.length) (hblank : strFalsy u.ip_address = true) :
    ((stepUnreachableSubmit probe l i { u with ignore := b }).devices.getD i
      dummyDevice).ip = some IGNORED_IP_ADDRESS := by
  have hip : ipStr { u with ignore := b } = IGNORED_IP_ADDRESS := by
    cases h : u.ip_address with
    | none => simp [ipStr, h]
    | some s =>
        have : s = "" := by simpa [strFalsy, h] using hblank
        simp [ipStr, h, this]
  have ha := applySubmission_ip (l.getD i dummyDevice) { u with ignore := b }
  rw [hip] at ha
  have h2 := getD_set_self l i
    (applySubmission (l.getD i dummyDevice) { u with ignore := b }) dummyDevice hi
  unfold stepUnreachableSubmit
  rw [validate_appliance_some probe _ IGNORED_IP_ADDRESS ha, if_pos rfl]
  cases hf : findUnresolvedFrom
      (l.set i (applySubmission (l.getD i dummyDevice) { u with ignore := b }))
      (i + 1) with
  | none =>
      simp only [hf, StepResult.devices, h2]
      exact ha
  | some j =>
      simp only [hf, StepResult.devices, h2]
      exact ha

/- C5 -/

/-- C5: per-appliance validation succeeds without probing on an ignored or
unset address; otherwise it fails with `invalid_ip_address` carrying the
string when the address is not IPv4, fails with `not_discovered` carrying the
address when the probe finds nothing, and merges the probed state on
success. -/
theorem c5_validate_appliance (probe : String → Option ApplianceState)
    (a : LanDevice) :
    ((a.ip = none ∨ a.ip = some IGNORED_IP_ADDRESS) →
      validate_appliance probe a = .ok a) ∧
    (∀ s, a.ip = some s → s ≠ IGNORED_IP_ADDRESS → isIPv4 s = false →
      validate_appliance probe a = .error ⟨"invalid_ip_address", some s⟩) ∧
    (∀ s, a.ip = some s → s ≠ IGNORED_IP_ADDRESS → isIPv4 s = true →
      probe s = none →
      validate_appliance probe a = .error ⟨"not_discovered", some s⟩) ∧
    (∀ s d, a.ip = some s → s ≠ IGNORED_IP_ADDRESS → isIPv4 s = true →
      probe s = some d → validate_appliance probe a = .ok (a.update d)) := by
  refine ⟨?_, ?_, ?_, ?_⟩
  · rintro (h | h)
    · unfold validate_appliance
      rw [h]
    · rw [validate_appliance_some probe a _ h]
      simp
  · intro s h hs hip
    rw [validate_appliance_some probe a s h]
    simp [hs, hip]
  · intro s h hs hip hp
    rw [validate_appliance_some probe a s h]
    simp [hs, hip, hp]
  · intro s d h hs hip hp
    rw [validate_appliance_some probe a s h]
    simp [hs, hip, hp]

/- C8 -/

/-- C8: when validation of an unreachable-appliance submission fails, the same
stage is redisplayed for the same appliance with the error cause attached, the
cursor is unchanged, and every other appliance record is unaltered. -/
theorem c8_failure_preserves_state (probe : String → Option ApplianceState)
    (l : List LanDevice) (i : Nat) (u : UnreachableInput) (e : FlowException)
    (herr : validate_appliance probe (applySubmission (l.getD i dummyDevice) u) =
      .error e) :
    stepUnreachableSubmit probe l i u =
      .showForm (l.set i (applySubmission (l.getD i dummyDevice) u)) i
        e.cause (some e.message) ∧
    ∀ j, j ≠ i → (stepUnreachableSubmit probe l i u).devices[j]? = l[j]? := by
  have hstep : stepUnreachableSubmit probe l i u =
      .showForm (l.set i (applySubmission (l.getD i dummyDevice) u)) i
        e.cause (some e.message) := by
    unfold stepUnreachableSubmit
    rw [herr]
  refine ⟨hstep, ?_⟩
  intro j hj
  rw [hstep]
  simp only [StepResult.devices]
  exact List.getElem?_set_ne (Ne.symm hj)

/- Concrete fixtures used by the witnesses. -/

/-- A probe that never finds a device. -/
def probeNone : String → Option ApplianceState := fun _ => none

/-- A probe that always reports state `⟨7⟩`. -/
def probeHit : String → Option ApplianceState := fun _ => some ⟨7⟩

/-- An unresolved appliance. -/
def devA : LanDevice :=
  { id := 1, ip := none, name := "a", type_ := "0xa1", token := "", key := "",
    state := ⟨0⟩ }

/-- A resolved appliance. -/
def devB : LanDevice :=
  { id := 2, ip := some "1.2.3.4", name := "b", type_ := "0xa1", token := "tb",
    key := "kb", state := ⟨1⟩ }

/-- An ignored appliance. -/
def devIgn : LanDevice :=
  { id := 3, ip := some IGNORED_IP_ADDRESS, name := "c", type_ := "0xa1",
    token := "", key := "", state := ⟨2⟩ }

/-- A submission carrying a probe-able address. -/
def subBad : UnreachableInput :=
  { ignore := false, ip_address := some "10.0.0.5", name := "a2", token := none,
    token_key := none }

/-- A submission with a blank address. -/
def subBlank : UnreachableInput :=
  { ignore := false, ip_address := some "", name := "a3", token := none,
    token_key := none }

/-- A configuration fixture. -/
def confU : Conf :=
  { username := "u1", password := "p1", mobile_app := none,
    advanced_options := false, appkey := "k", appid := 5, network_range := none,
    devices := [] }

/-- A registry entry whose unique id matches `confU`'s username. -/
def entryU : ConfigEntry := { entry_id := 11, unique_id := "u1", data := confU }

/-- An advanced-options submission with an appkey but no appid. -/
def subAdv : AdvancedInput :=
  { username := none, password := none, appkey := some "ak", appid := none,
    network_range := none }

/-- C2 witness: a blank-address submission with ignore-flag `true` leaves the
record ignored. -/
theorem c2_blank_address_becomes_ignored_witness :
    ((stepUnreachableSubmit probeNone [ devA, devB] 0
      { subBlank with ignore := true }).devices.getD 0 dummyDevice).ip =
      some IGNORED_IP_ADDRESS :=
  c2_blank_address_becomes_ignored probeNone [ devA, devB] 0 subBlank true
    (by decide) (by decide)

/-- C5 witness: a malformed address fails with `invalid_ip_address` carrying
the string. -/
theorem c5_validate_appliance_witness :
    validate_appliance probeNone { devA with ip := some "10.0.0" } =
      .error ⟨"invalid_ip_address", some "10.0.0"⟩ :=
  (c5_validate_appliance probeNone _).2.1 "10.0.0" rfl (by decide) (by decide)

/-- C8 witness: a probe miss at "10.0.0.5" redisplays the form for the same
appliance with the address as cause, leaving the other record untouched. -/
theorem c8_failure_preserves_state_witness :
    stepUnreachableSubmit probeNone [ devA, devB] 0 subBad =
      .showForm ([ devA, devB].set 0
        (applySubmission ([ devA, devB].getD 0 dummyDevice) subBad)) 0
        (some "10.0.0.5") (some "not_discovered") ∧
    (stepUnreachableSubmit probeNone [ devA, devB] 0 subBad).devices[1]? =
      [ devA, devB][1]? := by
  have h := c8_failure_preserves_state probeNone [ devA, devB] 0 subBad
    ⟨"not_discovered", some "10.0.0.5"⟩ rfl
  exact ⟨h.1, h.2 1 (by decide)⟩

/- C3 -/

/-- C3: the device list written by the entry reconciler consists exactly of
the records whose address is set and differs from the ignored sentinel, each
mapped to the persisted per-device fields. -/
theorem c3_device_list_filter (l : List LanDevice)
    (hne : ∀ a ∈ l, a.ip ≠ some "") :
    addEntryDevices l =
      (l.filter (fun a => decide (a.ip ≠ none) &&
        decide (a.ip ≠ some IGNORED_IP_ADDRESS))).map deviceConf := by
  unfold addEntryDevices
  congr 1
  refine List.filter_congr ?_
  intro a ha
  have hne2 := hne a ha
  cases h : a.ip with
  | none => simp [ipIncluded, h]
  | some s =>
      have hs : s ≠ "" := by
        intro hs
        exact hne2 (by rw [h, hs])
      simp [ipIncluded, h, hs]

/-- C3 witness: one unresolved, one resolved and one ignored record yield the
list of just the resolved one's fields. -/
theorem c3_device_list_filter_witness :
    addEntryDevices [ devA, devB, devIgn] =
      ([ devA, devB, devIgn].filter (fun a => decide (a.ip ≠ none) &&
        decide (a.ip ≠ some IGNORED_IP_ADDRESS))).map deviceConf :=
  c3_device_list_filter _ (by decide)

/- C4 -/

/-- C4: when a persisted entry with unique id equal to the configured username
exists, the reconciler overwrites that entry's data, schedules its reload and
aborts with `reauth_successful` without adding a record; otherwise it creates
a new entry. -/
theorem c4_reconcile_existing_entry (entries : List ConfigEntry) (conf : Conf)
    (l : List LanDevice) :
    (∀ e, entries.find? (fun e2 => e2.unique_id = conf.username) = some e →
      addEntryStep entries conf l =
        .abort "reauth_successful"
          (entries.map (fun e2 =>
            if e2.entry_id = e.entry_id then
              { e2 with data := { conf with devices := addEntryDevices l } }
            else e2))
          e.entry_id ∧
      (entries.map (fun e2 =>
          if e2.entry_id = e.entry_id then
            { e2 with data := { conf with devices := addEntryDevices l } }
          else e2)).length = entries.length) ∧
    (entries.find? (fun e2 => e2.unique_id = conf.username) = none →
      addEntryStep entries conf l =
        .create "Midea Dehumidifiers" { conf with devices := addEntryDevices l }) := by
  constructor
  · intro e he
    refine ⟨?_, by simp⟩
    unfold addEntryStep
    rw [he]
  · intro he
    unfold addEntryStep
    rw [he]

/-- C4 witness: with one matching entry, the step aborts with
`reauth_successful`, reloads entry 11 and keeps the registry size. -/
theorem c4_reconcile_existing_entry_witness :
    addEntryStep [ entryU] confU [ devB] =
      .abort "reauth_successful"
        ([ entryU].map (fun e2 =>
          if e2.entry_id = entryU.entry_id then
            { e2 with data := { confU with devices := addEntryDevices [ devB] } }
          else e2))
        entryU.entry_id ∧
    ([ entryU].map (fun e2 =>
        if e2.entry_id = entryU.entry_id then
          { e2 with data := { confU with devices := addEntryDevices [ devB] } }
        else e2)).length = [ entryU].length :=
  (c4_reconcile_existing_entry [ entryU] confU [ devB]).1 entryU (by decide)

/- C6 -/

/-- C6: an advanced-options submission missing appkey or appid fails with
`invalid_appkey` and redisplays the form with the submitted truthy values
retained; the flow proceeds only when both are present. -/
theorem c6_advanced_appkey_appid (conf : Conf) (u : AdvancedInput) :
    ((u.appkey = none ∨ u.appid = none) →
      advancedSubmit conf u =
        .showForm (advancedFormDefaults conf u) none (some "invalid_appkey")) ∧
    (∀ s, u.appkey = some s → s ≠ "" →
      (advancedFormDefaults conf u).appkey = s) ∧
    (∀ n, u.appid = some n → n ≠ 0 →
      (advancedFormDefaults conf u).appid = n) ∧
    (∀ c2, advancedSubmit conf u = .proceed c2 →
      u.appkey ≠ none ∧ u.appid ≠ none) := by
  have h1 : (u.appkey = none ∨ u.appid = none) →
      advancedSubmit conf u =
        .showForm (advancedFormDefaults conf u) none (some "invalid_appkey") := by
    intro h
    rcases h with h | h
    · cases hid : u.appid <;>
        simp [advancedSubmit, applyAdvancedOptions, h, hid]
    · cases hk : u.appkey <;>
        simp [advancedSubmit, applyAdvancedOptions, h, hk]
  refine ⟨h1, ?_, ?_, ?_⟩
  · intro s hs hsne
    simp [advancedFormDefaults, orDefaultS, hs, hsne]
  · intro n hn hnne
    simp [advancedFormDefaults, orDefaultI, hn, hnne]
  · intro c2 hc
    constructor
    · intro hk
      rw [h1 (Or.inl hk)] at hc
      cases hc
    · intro hid
      rw [h1 (Or.inr hid)] at hc
      cases hc

/-- An advanced-options submission with an empty (but present) appkey and no
appid. -/
def subAdvEmpty : AdvancedInput :=
  { username := none, password := none, appkey := some "", appid := none,
    network_range := none }

/-- C6 counterexample: a submission with exactly one of appkey/appid present
(the appkey, submitted as the empty string) fails with `invalid_appkey`, but
the redisplayed form does not retain the submitted value: it shows the fixed
default appkey instead of the submitted empty string. -/
theorem c6_advanced_appkey_appid_counterexample :
    subAdvEmpty.appkey = some "" ∧ subAdvEmpty.appid = none ∧
    advancedSubmit confU subAdvEmpty =
      .showForm (advancedFormDefaults confU subAdvEmpty) none
        (some "invalid_appkey") ∧
    (advancedFormDefaults confU subAdvEmpty).appkey ≠ "" :=
  ⟨rfl, rfl, rfl, by decide⟩

/-- C6 witness: appkey submitted without appid fails with `invalid_appkey`,
and the redisplayed form retains the submitted appkey. -/
theorem c6_advanced_appkey_appid_witness :
    advancedSubmit confU subAdv =
      .showForm (advancedFormDefaults confU subAdv) none (some "invalid_appkey") ∧
    (advancedFormDefaults confU subAdv).appkey = "ak" :=
  ⟨(c6_advanced_appkey_appid confU subAdv).1 (Or.inr rfl),
   (c6_advanced_appkey_appid confU subAdv).2.1 "ak" rfl (by decide)⟩

/- C7 -/

/-- The configuration produced by the credential stage for input `u` with a
resolved appkey/appid pair. -/
def mkConf (u : UserInput) (k : String) (i : Int) : Conf :=
  { username := u.username
    password := u.password
    mobile_app := u.mobile_app
    advanced_options := u.advanced_options
    appkey := k
    appid := i
    network_range := none
    devices := [] }

/-- The scenario input: username "u1", password "p1", profile "NetHome",
advanced mode off. -/
def userNetHome : UserInput :=
  { username := "u1"
    password := "p1"
    mobile_app := some "NetHome"
    advanced_options := false }

/-- C7: a supplied profile name resolves appkey/appid from the supported-apps
table, an unknown name fails with `invalid_app_name` carrying the name, an
omitted name falls back to the fixed defaults; and the NetHome scenario
reaches discovery with the NetHome table entry and empty network ranges. -/
theorem c7_credential_appkeys (u : UserInput) :
    (∀ app k i, u.mobile_app = some app → app ≠ "" →
      lookupApp app = some (k, i) →
      resolveAppKeys u = .ok (mkConf u k i) ∧ networksOf (mkConf u k i) = []) ∧
    (∀ app, u.mobile_app = some app → app ≠ "" → lookupApp app = none →
      resolveAppKeys u = .error ⟨"invalid_app_name", some app⟩) ∧
    (strFalsy u.mobile_app = true →
      resolveAppKeys u = .ok (mkConf u DEFAULT_APPKEY DEFAULT_APP_ID)) ∧
    (resolveAppKeys userNetHome = .ok (mkConf userNetHome "nethome-appkey" 1017) ∧
     lookupApp "NetHome" = some ("nethome-appkey", 1017)) := by
  refine ⟨?_, ?_, ?_, by constructor <;> rfl⟩
  · intro app k i happ hne hlk
    constructor
    · simp [resolveAppKeys, happ, strFalsy, hne, hlk, mkConf]
    · rfl
  · intro app happ hne hlk
    simp [resolveAppKeys, happ, strFalsy, hne, hlk]
  · intro h
    cases happ : u.mobile_app with
    | none => simp [resolveAppKeys, happ, strFalsy, mkConf]
    | some s =>
        have : s = "" := by simpa [strFalsy, happ] using h
        simp [resolveAppKeys, happ, strFalsy, this, mkConf]

/-- C7 witness: the NetHome profile resolves to the NetHome table entry and
discovery sees empty network ranges. -/
theorem c7_credential_appkeys_witness :
    resolveAppKeys userNetHome = .ok (mkConf userNetHome "nethome-appkey" 1017) ∧
    networksOf (mkConf userNetHome "nethome-appkey" 1017) = [] :=
  (c7_credential_appkeys userNetHome).1 "NetHome" "nethome-appkey" 1017 rfl
    (by decide) (by decide)

/- C1 helper lemmas. -/

theorem findUnresolvedAux_eq_head :
    ∀ (cs : List LanDevice) (i : Nat),
      findUnresolvedAux i cs = (unresolvedAux i cs).head? := by
  intro cs
  induction cs with
  | nil => intro i; rfl
  | cons a rest ih =>
      intro i
      by_cases ha : a.ip = none
      · simp [findUnresolvedAux, unresolvedAux, ha]
      · simp [findUnresolvedAux, unresolvedAux, ha, ih (i + 1)]

theorem scanAux_eq_findUnresolvedAux :
    ∀ (cs : List LanDevice), (∀ a ∈ cs, a.ip ≠ some "") →
      ∀ i, scanAux i cs = findUnresolvedAux i cs := by
  intro cs
  induction cs with
  | nil => intro _ i; rfl
  | cons a rest ih =>
      intro hne i
      cases h : a.ip with
      | none => simp [scanAux, findUnresolvedAux, h, strFalsy]
      | some s =>
          have hs : s ≠ "" := by
            intro hs
            exact hne a (List.mem_cons_self a rest) (by rw [h, hs])
          simp [scanAux, findUnresolvedAux, h, strFalsy, hs,
            ih (fun b hb => hne b (List.mem_cons_of_mem a hb)) (i + 1)]

theorem unresolvedAux_mem :
    ∀ (cs : List LanDevice) (i j : Nat),
      j ∈ unresolvedAux i cs ↔
        (i ≤ j ∧ ∃ b, cs[j - i]? = some b ∧ b.ip = none) := by
  intro cs
  induction cs with
  | nil => simp [unresolvedAux]
  | cons a rest ih =>
      intro i j
      by_cases ha : a.ip = none
      · simp only [unresolvedAux, if_pos ha, List.mem_cons]
        constructor
        · rintro (rfl | hmem)
          · exact ⟨Nat.le_refl j, a, by simp, ha⟩
          · have h2 := (ih (i + 1) j).mp hmem
            refine ⟨by omega, ?_⟩
            obtain ⟨b, hb, hbip⟩ := h2.2
            refine ⟨b, ?_, hbip⟩
            have hji : j - i = (j - (i + 1)) + 1 := by omega
            rw [hji]
            simpa using hb
        · rintro ⟨hij, b, hb, hbip⟩
          rcases Nat.eq_or_lt_of_le hij with rfl | hlt
          · left
            rfl
          · right
            refine (ih (i + 1) j).mpr ⟨by omega, b, ?_, hbip⟩
            have hji : j - i = (j - (i + 1)) + 1 := by omega
            rw [hji] at hb
            simpa using hb
      · simp only [unresolvedAux, if_neg ha]
        rw [ih (i + 1) j]
        constructor
        · rintro ⟨hij, b, hb, hbip⟩
          refine ⟨by omega, b, ?_, hbip⟩
          have hji : j - i = (j - (i + 1)) + 1 := by omega
          rw [hji]
          simpa using hb
        · rintro ⟨hij, b, hb, hbip⟩
          rcases Nat.eq_or_lt_of_le hij with rfl | hlt
          · simp at hb
            cases hb
            exact absurd hbip ha
          · refine ⟨by omega, b, ?_, hbip⟩
            have hji : j - i = (j - (i + 1)) + 1 := by omega
            rw [hji] at hb
            simpa using hb

theorem unresolvedAux_pairwise :
    ∀ (cs : List LanDevice) (i : Nat), (unresolvedAux i cs).Pairwise (· < ·) := by
  intro cs
  induction cs with
  | nil => intro i; simp [unresolvedAux]
  | cons a rest ih =>
      intro i
      by_cases ha : a.ip = none
      · simp only [unresolvedAux, if_pos ha]
        refine List.Pairwise.cons ?_ (ih (i + 1))
        intro j hj
        have := ((unresolvedAux_mem rest (i + 1) j).mp hj).1
        omega
      · simp only [unresolvedAux, if_neg ha]
        exact ih (i + 1)

theorem unresolvedAux_length :
    ∀ (cs : List LanDevice) (i : Nat),
      (unresolvedAux i cs).length = cs.countP (fun a => decide (a.ip = none)) := by
  intro cs
  induction cs with
  | nil => intro i; rfl
  | cons a rest ih =>
      intro i
      by_cases ha : a.ip = none
      · simp [unresolvedAux, ha, List.countP_cons, ih (i + 1)]
      · simp [unresolvedAux, ha, List.countP_cons, ih (i + 1)]

theorem unresolvedAux_head :
    ∀ (cs : List LanDevice) (k j : Nat),
      (unresolvedAux k cs).head? = some j →
      k ≤ j ∧ (∃ b, cs[j - k]? = some b ∧ b.ip = none) ∧
        unresolvedAux k cs = unresolvedAux j (cs.drop (j - k)) := by
  intro cs
  induction cs with
  | nil => intro k j h; simp [unresolvedAux] at h
  | cons a rest ih =>
      intro k j h
      by_cases ha : a.ip = none
      · simp only [unresolvedAux, if_pos ha, List.head?_cons, Option.some.injEq] at h
        subst h
        refine ⟨Nat.le_refl k, ⟨a, by simp, ha⟩, ?_⟩
        simp [unresolvedAux, ha]
      · simp only [unresolvedAux, if_neg ha] at h ⊢
        obtain ⟨hkj, ⟨b, hb, hbip⟩, heq⟩ := ih (k + 1) j h
        have hji : j - k = (j - (k + 1)) + 1 := by omega
        refine ⟨by omega, ⟨b, ?_, hbip⟩, ?_⟩
        · rw [hji]
          simpa using hb
        · rw [heq, hji]
          simp

theorem validate_ok_of_submissionOk (probe : String → Option ApplianceState)
    (u : UnreachableInput) (a : LanDevice)
    (h : submissionOk probe u = true) :
    ∃ a2, validate_appliance probe (applySubmission a u) = .ok a2 ∧
      a2.ip = some (ipStr u) := by
  have hip := applySubmission_ip a u
  rw [validate_appliance_some probe _ (ipStr u) hip]
  unfold submissionOk at h
  by_cases hig : ipStr u = IGNORED_IP_ADDRESS
  · exact ⟨applySubmission a u, by rw [if_pos hig], hip⟩
  · rw [if_neg hig]
    simp only [decide_eq_true_eq, Bool.or_eq_true, decide_eq_true_iff,
      Bool.and_eq_true, Option.isSome_iff_exists] at h
    rcases h with h | ⟨h4, d, hd⟩
    · exact absurd h hig
    · rw [if_pos h4, hd]
      exact ⟨(applySubmission a u).update d, rfl, hip⟩

/-- The all-success run of the unreachable-appliance phase: with one passing
submission per unresolved appliance, the phase visits exactly the unresolved
indices from the cursor on, in order, and then transfers to
`_async_add_entry`. -/
theorem runPhase_all_ok (probe : String → Option ApplianceState) :
    ∀ (subs : List UnreachableInput) (l : List LanDevice) (i : Nat),
      i < l.length →
      (∃ b, l[i]? = some b ∧ b.ip = none) →
      (∀ u ∈ subs, submissionOk probe u = true) →
      subs.length = (unresolvedFrom l i).length →
      ∃ l2, runPhase probe l i subs = .finished l2 (unresolvedFrom l i) := by
  intro subs
  induction subs with
  | nil =>
      intro l i hi hb _ hlen
      obtain ⟨b, hbi, hbip⟩ := hb
      have hgl : l[i] = b := by
        rw [List.getElem?_eq_getElem hi] at hbi
        exact Option.some.inj hbi
      exfalso
      have hdrop : l.drop i = l[i] :: l.drop (i + 1) := List.drop_eq_getElem_cons hi
      have : unresolvedFrom l i = i :: unresolvedAux (i + 1) (l.drop (i + 1)) := by
        unfold unresolvedFrom
        rw [hdrop]
        simp [unresolvedAux, hgl, hbip]
      rw [this] at hlen
      simp at hlen
  | cons u rest ih =>
      intro l i hi hb hok hlen
      obtain ⟨b, hbi, hbip⟩ := hb
      have hgl : l[i] = b := by
        rw [List.getElem?_eq_getElem hi] at hbi
        exact Option.some.inj hbi
      obtain ⟨a2, hval, hip2⟩ :=
        validate_ok_of_submissionOk probe u (l.getD i dummyDevice)
          (hok u (List.mem_cons_self u rest))
      have hdrop1 : (l.set i a2).drop (i + 1) = l.drop (i + 1) :=
        List.drop_set_of_lt a2 l (Nat.lt_succ_self i)
      have hfind : findUnresolvedFrom (l.set i a2) (i + 1) =
          (unresolvedAux (i + 1) (l.drop (i + 1))).head? := by
        unfold findUnresolvedFrom
        rw [hdrop1, findUnresolvedAux_eq_head]
      have hdrop : l.drop i = l[i] :: l.drop (i + 1) := List.drop_eq_getElem_cons hi
      have hufl : unresolvedFrom l i = i :: unresolvedAux (i + 1) (l.drop (i + 1)) := by
        unfold unresolvedFrom
        rw [hdrop]
        simp [unresolvedAux, hgl, hbip]
      cases h2 : (unresolvedAux (i + 1) (l.drop (i + 1))).head? with
      | none =>
          have htail : unresolvedAux (i + 1) (l.drop (i + 1)) = [] :=
            List.head?_eq_none_iff.mp h2
          have hstep : stepUnreachableSubmit probe l i u = .addEntry (l.set i a2) := by
            unfold stepUnreachableSubmit
            rw [hval]
            simp only [hfind, h2]
          refine ⟨l.set i a2, ?_⟩
          simp only [runPhase, hstep, hufl, htail]
      | some j =>
          obtain ⟨hij, ⟨c, hc, hcip⟩, heq⟩ :=
            unresolvedAux_head (l.drop (i + 1)) (i + 1) j h2
          have hcl : l[j]? = some c := by
            rw [List.getElem?_drop] at hc
            have : i + 1 + (j - (i + 1)) = j := by omega
            rwa [this] at hc
          have hjlen : j < l.length := by
            have := (List.getElem?_eq_some_iff).mp hcl
            exact this.1
          have hstep : stepUnreachableSubmit probe l i u =
              .showForm (l.set i a2) j none none := by
            unfold stepUnreachableSubmit
            rw [hval]
            simp only [hfind, h2]
          have hcl2 : (l.set i a2)[j]? = some c := by
            rw [List.getElem?_set_ne (by omega : i ≠ j)]
            exact hcl
          have hdropj : (l.set i a2).drop j = l.drop j :=
            List.drop_set_of_lt a2 l (by omega : i < j)
          have hdrops : (l.drop (i + 1)).drop (j - (i + 1)) = l.drop j := by
            rw [List.drop_drop]
            congr 1
            omega
          have huf2 : unresolvedFrom (l.set i a2) j =
              unresolvedAux (i + 1) (l.drop (i + 1)) := by
            unfold unresolvedFrom
            rw [hdropj, heq, hdrops]
          have hrest : rest.length = (unresolvedFrom (l.set i a2) j).length := by
            rw [huf2]
            rw [hufl] at hlen
            simpa using hlen
          obtain ⟨l3, hrun⟩ := ih (l.set i a2) j (by simpa using hjlen)
            ⟨c, hcl2, hcip⟩ (fun v hv => hok v (List.mem_cons_of_mem u hv)) hrest
          refine ⟨l3, ?_⟩
          simp only [runPhase, hstep, hrun, hufl, huf2]

/- C1 -/

/-- C1: for a discovered appliance list with K address-less entries and one
passing submission per such entry, the unreachable-appliance stage is
displayed exactly K times, visiting the address-less entries in their
original list order, and the flow then reaches the entry reconciler; when
K = 0 the flow transfers directly from discovery to the reconciler with zero
displays. -/
theorem c1_unreachable_stage_visits (probe : String → Option ApplianceState)
    (l : List LanDevice) (subs : List UnreachableInput)
    (hne : ∀ a ∈ l, a.ip ≠ some "")
    (hok : ∀ u ∈ subs, submissionOk probe u = true)
    (hlen : subs.length = l.countP (fun a => decide (a.ip = none))) :
    (afterDiscovery probe l subs).isFinished = true ∧
    (afterDiscovery probe l subs).displays = unresolvedFrom l 0 ∧
    (unresolvedFrom l 0).length = l.countP (fun a => decide (a.ip = none)) ∧
    (unresolvedFrom l 0).Pairwise (· < ·) ∧
    (∀ j, j ∈ unresolvedFrom l 0 ↔
      (j < l.length ∧ (l.getD j dummyDevice).ip = none)) := by
  have huf0 : unresolvedFrom l 0 = unresolvedAux 0 l := by
    unfold unresolvedFrom
    rw [List.drop_zero]
  have hlength : (unresolvedFrom l 0).length =
      l.countP (fun a => decide (a.ip = none)) := by
    rw [huf0, unresolvedAux_length]
  have hmem : ∀ j, j ∈ unresolvedFrom l 0 ↔
      (j < l.length ∧ (l.getD j dummyDevice).ip = none) := by
    intro j
    rw [huf0, unresolvedAux_mem l 0 j]
    simp only [Nat.zero_le, true_and, Nat.sub_zero]
    constructor
    · rintro ⟨b, hb, hbip⟩
      obtain ⟨hj, hbj⟩ := List.getElem?_eq_some_iff.mp hb
      refine ⟨hj, ?_⟩
      rw [List.getD_eq_getElem?_getD, hb]
      exact hbip
    · rintro ⟨hj, hip⟩
      refine ⟨l[j], List.getElem?_eq_getElem hj, ?_⟩
      rw [List.getD_eq_getElem?_getD, List.getElem?_eq_getElem hj] at hip
      exact hip
  have hscan : discoveryScan l = (unresolvedAux 0 l).head? := by
    unfold discoveryScan
    rw [scanAux_eq_findUnresolvedAux l hne 0, findUnresolvedAux_eq_head]
  refine ⟨?_, ?_, hlength, huf0 ▸ unresolvedAux_pairwise l 0, hmem⟩ <;>
  · cases hh : (unresolvedAux 0 l).head? with
    | none =>
        have hempty : unresolvedAux 0 l = [] := List.head?_eq_none_iff.mp hh
        simp [afterDiscovery, hscan, hh, PhaseOutcome.isFinished,
          PhaseOutcome.displays, huf0, hempty]
    | some i =>
        obtain ⟨_, hbex, heq⟩ := unresolvedAux_head l 0 i hh
        rw [Nat.sub_zero] at hbex heq
        obtain ⟨b, hb, hbip⟩ := hbex
        have hi : i < l.length := (List.getElem?_eq_some_iff.mp hb).1
        have hufi : unresolvedFrom l i = unresolvedAux 0 l := by
          unfold unresolvedFrom
          rw [← heq]
        have hlen2 : subs.length = (unresolvedFrom l i).length := by
          rw [hufi, unresolvedAux_length]
          exact hlen
        obtain ⟨l2, hrun⟩ :=
          runPhase_all_ok probe subs l i hi ⟨b, hb, hbip⟩ hok hlen2
        simp [afterDiscovery, hscan, hh, hrun, PhaseOutcome.isFinished,
          PhaseOutcome.displays, huf0, hufi]

/-- A second unresolved appliance. -/
def devA2 : LanDevice := { devA with id := 4 }

/-- C1 witness: two address-less appliances among three are each visited once,
in order, with the display count matching the address-less count. -/
theorem c1_unreachable_stage_visits_witness :
    (afterDiscovery probeHit [ devA, devB, devA2] [ subBad, subBlank]).isFinished =
      true ∧
    (afterDiscovery probeHit [ devA, devB, devA2] [ subBad, subBlank]).displays =
      unresolvedFrom [ devA, devB, devA2] 0 ∧
    (unresolvedFrom [ devA, devB, devA2] 0).length =
      [ devA, devB, devA2].countP (fun a => decide (a.ip = none)) := by
  have h := c1_unreachable_stage_visits probeHit [ devA, devB, devA2]
    [ subBad, subBlank] (by decide) (by decide) (by decide)
  exact ⟨h.1, h.2.1, h.2.2.1⟩

end Midea
